import Mathlib

/-!
Verification of the scraping core of the Coemeta-Webscraper repository
(file src/scraper.py) against its natural-language specification.

The development is a shallow embedding of the Python source:

* Python dictionaries holding one listing become association lists
  (key/value pairs of strings, in insertion order), so that statements
  about the exact key set of a record can be made.
* BeautifulSoup is a third-party library; its query results on one
  candidate element are modelled as an `Element` record whose fields hold
  exactly the values the Python code reads back from the library
  (one field per distinct `find`/`select` call in the source).
* Effects of the outside world (browser construction, navigation, page
  content, HTTP fetches) are supplied as explicit environment values, and
  the control flow of the source is reproduced over them.
* Python string primitives used by the source (`lower`, `in`,
  `startswith`, truthiness, `or`) are given executable Lean counterparts.

Line numbers in comments refer to src/scraper.py.
-/

namespace CoemetaScraper

/-- ASCII lowering of one character, as Python `str.lower` acts on the
ASCII range that all keyword constants of the source live in. -/
def pyLowerChar (c : Char) : Char :=
  if 'A' ≤ c ∧ c ≤ 'Z' then Char.ofNat (c.toNat + 32) else c

/-- Python `s.lower()` for the strings handled by the scraper. -/
def pyLower (s : String) : String := String.mk (s.data.map pyLowerChar)

/-- Python substring test `t in s`, as a proposition over the character
lists of the two strings. -/
def strContains (s t : String) : Prop := t.data <:+: s.data

instance (s t : String) : Decidable (strContains s t) := by
  unfold strContains; infer_instance

/-- Boolean form of `strContains`, used where the source branches on a
substring test. -/
def strContainsB (s t : String) : Bool := decide (strContains s t)

/-- Python `s.startswith(p)`. -/
def pyStartsWith (s p : String) : Bool := p.data.isPrefixOf s.data

/-- Python `a or b` on strings: the empty string is falsy. -/
def pyOrStr (a b : String) : String := if a = "" then b else a

/-- Python `a or b` on optional lookup results: `None` is falsy, any
found element is truthy. -/
def pyOr {α : Type} : Option α → Option α → Option α
  | some a, _ => some a
  | none, b => b

/-- String append is associative (used to rewrite concatenated URL and
message literals). -/
theorem strAppendAssoc (a b c : String) : a ++ b ++ c = a ++ (b ++ c) := by
  cases a; cases b; cases c
  show String.mk _ = String.mk _
  rw [List.append_assoc]

/-- One scraped listing: a Python dict with string keys and values, kept
in insertion order. -/
abbrev Listing := List (String × String)

/-- The keys of a listing dict, in insertion order. -/
def recKeys (r : Listing) : List String := r.map Prod.fst

/-- Value of key `k` in listing `r` (empty string when absent). -/
def listingGet (r : Listing) (k : String) : String :=
  ((r.find? (fun kv => kv.1 = k)).getD (k, "")).2

/-- Key written at line 1040 of the source. -/
def descKey : String := "Item Description"

/-- Key written at line 1055 of the source. -/
def priceKey : String := "Current price"

/-- Key written at line 1096 of the source. -/
def dateKey : String := "Auction end date"

/-- Key written at line 1126 of the source. -/
def imageKey : String := "Auction image / thumbnail URL (extra credit)"

/-- The four keys every listing dict of the source carries. -/
def listingKeys : List String := [descKey, priceKey, dateKey, imageKey]

/-- Attributes of an `img` tag that the source reads (lines 1113-1118):
`get(attr, "")` yields the empty string for an absent attribute, modelled
by `Option.getD _ ""` below. -/
structure ImgTag where
  src : Option String
  dataSrc : Option String
  dataLazy : Option String
  dataOriginal : Option String
deriving DecidableEq

/-- One candidate element of the parsed document, modelled by the values
the source reads back from BeautifulSoup on it.  Each `find...` field is
the `get_text(strip=True)` of the first element matching the
corresponding query at lines 1027-1107 of the source, or `none` when the
query finds nothing; `some ""` is a found element with empty text. -/
structure Element where
  /-- `elem.get_text()` (line 995). -/
  text : String
  /-- `elem.get("class", [])` (line 996). -/
  classes : List String
  /-- `item.find("a", href=lambda x: x and "/item/" in x)` (line 1028). -/
  findItemLinkText : Option String
  /-- `item.find("a")` (line 1029). -/
  findAText : Option String
  /-- `item.find("h3")` (line 1030). -/
  findH3Text : Option String
  /-- `item.find("h4")` (line 1031). -/
  findH4Text : Option String
  /-- `item.find("div", class_= title/name/desc)` (lines 1032-1038). -/
  findTitleDivText : Option String
  /-- `item.find("span", class_= contains "price")` (line 1048). -/
  findPriceSpanText : Option String
  /-- `item.find("div", class_= contains "price")` (lines 1049-1051). -/
  findPriceDivText : Option String
  /-- `item.find("span", string= contains "$")` (line 1052). -/
  findDollarSpanText : Option String
  /-- `item.find("div", string= contains "$")` (line 1053). -/
  findDollarDivText : Option String
  /-- `item.find("div", class_= date/time/end/timer)` (lines 1063-1070). -/
  findDateClassDivText : Option String
  /-- `item.find("span", class_= date/time/end/timer)` (lines 1071-1078). -/
  findDateClassSpanText : Option String
  /-- `item.find("div", string= end/closing/time/date)` (lines 1079-1086). -/
  findDateStrDivText : Option String
  /-- `item.find("span", string= end/closing/time/date)` (lines 1087-1094). -/
  findDateStrSpanText : Option String
  /-- `item.find("img", src=True)` (line 1104). -/
  findImgSrc : Option ImgTag
  /-- `item.find("img", data-src present)` (line 1105). -/
  findImgDataSrc : Option ImgTag
  /-- `item.find("img", data-lazy present)` (line 1106). -/
  findImgDataLazy : Option ImgTag
  /-- `item.find("img", data-original present)` (line 1107). -/
  findImgDataOriginal : Option ImgTag
  /-- Whether the per-item body (lines 1023-1132) runs without raising;
  an exception is caught at lines 1134-1136 and skips the item. -/
  processingOk : Bool
deriving DecidableEq

/-- The parsed document, modelled by what `soup.select` returns for each
CSS selector string the source tries. -/
structure Soup where
  select : String → List Element

/-- The selector strategies of lines 976-987, in order. -/
def selectors_to_try : List String :=
  [".p-datatable-tbody tr",
   "div[class*=\x27product\x27]",
   "div[class*=\x27item\x27]:not([class*=\x27nav\x27]):not([class*=\x27header\x27]):not([class*=\x27footer\x27])",
   "div[class*=\x27card\x27]:not([class*=\x27nav\x27]):not([class*=\x27header\x27]):not([class*=\x27footer\x27])",
   "div[class*=\x27auction\x27]",
   "[class*=\x27ng-star-inserted\x27]:not([class*=\x27nav\x27]):not([class*=\x27header\x27]):not([class*=\x27footer\x27])",
   "div[class*=\x27col\x27]:not([class*=\x27nav\x27]):not([class*=\x27header\x27]):not([class*=\x27footer\x27])",
   "div[class*=\x27row\x27] > div:not([class*=\x27nav\x27]):not([class*=\x27header\x27]):not([class*=\x27footer\x27])",
   "a[href*=\x27/item/\x27]",
   "div:has(a[href*=\x27/item/\x27])"]

/-- The navigation/chrome words of lines 999-1009. -/
def skip_words : List String :=
  ["sign in", "login", "register", "cart", "search", "menu", "nav",
   "header", "footer"]

/-- Lines 995-1011: an element is dropped when its lowered text or its
lowered space-joined class list contains a skip word. -/
def elemSkipped (e : Element) : Bool :=
  skip_words.any (fun w =>
    strContainsB (pyLower e.text) w ||
    strContainsB (pyLower (String.intercalate " " e.classes)) w)

/-- Lines 989-1019: try each selector in order; on the first selector
returning elements whose filtered list is non-empty, keep that filtered
list and stop. -/
def findProductElements : List String → Soup → List Element
  | [], _ => []
  | sel :: rest, soup =>
    let elements := soup.select sel
    if elements.isEmpty then findProductElements rest soup
    else
      let filtered := elements.filter (fun e => !elemSkipped e)
      if filtered.isEmpty then findProductElements rest soup else filtered

/-- The `product_elements` list computed at lines 974-1019. -/
def productElements (soup : Soup) : List Element :=
  findProductElements selectors_to_try soup

/-- The or-chain of lines 1027-1039 selecting a description element. -/
def descElem (item : Element) : Option String :=
  pyOr item.findItemLinkText (pyOr item.findAText (pyOr item.findH3Text
    (pyOr item.findH4Text item.findTitleDivText)))

/-- Lines 1040-1044: the description text, with the synthetic placeholder
for item number `i + 1` (0-based `i`) when nothing is found. -/
def extractDescription (item : Element) (i : Nat) : String :=
  match descElem item with
  | some t => t
  | none => "Item " ++ toString (i + 1)

/-- Lines 1047-1059: the price text. -/
def extractPrice (item : Element) : String :=
  match pyOr item.findPriceSpanText (pyOr item.findPriceDivText
      (pyOr item.findDollarSpanText item.findDollarDivText)) with
  | some t => t
  | none => "Price not available"

/-- Lines 1062-1100: the end-date text. -/
def extractDate (item : Element) : String :=
  match pyOr item.findDateClassDivText (pyOr item.findDateClassSpanText
      (pyOr item.findDateStrDivText item.findDateStrSpanText)) with
  | some t => t
  | none => "Date not available"

/-- The or-chain of lines 1103-1108 selecting an image element. -/
def imgElem (item : Element) : Option ImgTag :=
  pyOr item.findImgSrc (pyOr item.findImgDataSrc
    (pyOr item.findImgDataLazy item.findImgDataOriginal))

/-- Lines 1113-1118: first truthy attribute among src, data-src,
data-lazy, data-original, each defaulting to the empty string. -/
def rawImageUrl (img : ImgTag) : String :=
  pyOrStr (img.src.getD "") (pyOrStr (img.dataSrc.getD "")
    (pyOrStr (img.dataLazy.getD "") (img.dataOriginal.getD "")))

/-- Lines 1121-1124: prefix protocol-relative and root-relative values;
leave everything else unchanged. -/
def absolutizeImageUrl (url : String) : String :=
  if url ≠ "" ∧ pyStartsWith url "//" = true then "https:" ++ url
  else if url ≠ "" ∧ pyStartsWith url "/" = true then
    "https://shopgoodwill.com" ++ url
  else url

/-- Lines 1110-1124: the image URL field of one item. -/
def extractImage (item : Element) : String :=
  match imgElem item with
  | none => ""
  | some img => absolutizeImageUrl (rawImageUrl img)

/-- The dict built for item `i` at lines 1024-1126, in insertion order. -/
def buildListing (item : Element) (i : Nat) : Listing :=
  [(descKey, extractDescription item i),
   (priceKey, extractPrice item),
   (dateKey, extractDate item),
   (imageKey, extractImage item)]

/-- Lines 1022-1136 for a single enumerated item: skipped when the body
raises (caught at 1134-1136) or when the description is empty or equal
to the positional placeholder (lines 1128-1132). -/
def processItem (i : Nat) (item : Element) : Option Listing :=
  if item.processingOk then
    let d := extractDescription item i
    if d ≠ "" ∧ d ≠ "Item " ++ toString (i + 1) then
      some (buildListing item i)
    else none
  else none

/-- Description of the synthetic record of lines 1139-1146. -/
def noResultsDesc (keyword : String) : String :=
  "No results found for \x27" ++ keyword ++
    "\x27 - website may be blocking automated access"

/-- The synthetic record appended at lines 1138-1146 when no item
survived. -/
def noResultsListing (keyword : String) : Listing :=
  [(descKey, noResultsDesc keyword),
   (priceKey, "N/A"), (dateKey, "N/A"), (imageKey, "")]

/-- `AntiDetectionScraper.extract_results_from_soup` (lines 939-1148):
process the first `max_results` surviving candidates, then fall back to
the single synthetic record when nothing was kept. -/
def extract_results_from_soup (soup : Soup) (keyword : String)
    (max_results : Nat) : List Listing :=
  let results := ((productElements soup).take max_results).enum.filterMap
    (fun p => processItem p.1 p.2)
  if results.isEmpty then [noResultsListing keyword] else results

/-- The blocking indicators of lines 528-538, in order. -/
def blocking_indicators : List String :=
  ["blocked", "captcha", "verify", "robot", "automation", "access denied",
   "forbidden", "rate limit", "too many requests"]

/-- `AntiDetectionScraper.check_for_blocking` (lines 503-549) as a
function of the page source it inspects: the source lowers the page text
once and returns True on the first indicator found.  (The surrounding
try/except of the source only guards the read of `driver.page_source`;
the decision on a given content string is the loop modelled here.) -/
def check_for_blocking (page_source : String) : Bool :=
  blocking_indicators.any (fun ind => strContainsB (pyLower page_source) ind)

/-- Description of the error record of lines 807-814. -/
def errorDesc (keyword msg : String) : String :=
  "Error scraping results for \x27" ++ keyword ++ "\x27: " ++ msg

/-- The single error record returned by `scrape_with_driver` on an
exception (lines 807-814). -/
def errorListing (keyword msg : String) : Listing :=
  [(descKey, errorDesc keyword msg),
   (priceKey, "N/A"), (dateKey, "N/A"), (imageKey, "")]

/-- What the outside world does during one Selenium-driven attempt
(`scrape_with_driver`, lines 676-814).  Navigation, waits and the
human-behavior simulation only affect which page ends up loaded, so the
run is characterized by the page contents observed and by whether some
driver operation raised before extraction. -/
structure DriverRun where
  /-- An exception raised by a driver operation (navigation, script,
  wait) inside the try block, if any, with its message. -/
  navErr : Option String
  /-- `driver.page_source` at the blocking check of line 764. -/
  pageContent : String
  /-- Result of `self.handle_captcha(driver)` at line 766. -/
  captchaHandled : Bool
  /-- `driver.page_source` at the re-check of line 768. -/
  contentAfterCaptcha : String
  /-- `BeautifulSoup(driver.page_source)` at lines 787-788. -/
  soup : Soup

/-- `AntiDetectionScraper.scrape_with_driver` (lines 676-814): the raise
statements of lines 769 and 771 are caught by the except clause of lines
795-814, which returns the single error record. -/
def scrape_with_driver (run : DriverRun) (keyword : String)
    (max_results : Nat) : List Listing :=
  match run.navErr with
  | some msg => [errorListing keyword msg]
  | none =>
    if check_for_blocking run.pageContent then
      if run.captchaHandled then
        if check_for_blocking run.contentAfterCaptcha then
          [errorListing keyword "Still blocked after captcha handling"]
        else extract_results_from_soup run.soup keyword max_results
      else [errorListing keyword "Blocked and captcha handling failed"]
    else extract_results_from_soup run.soup keyword max_results

/-- The record of lines 909-916, returned when every URL format failed. -/
def allUrlsFailedListing (keyword : String) : Listing :=
  [(descKey, "All search URL formats failed for \x27" ++ keyword ++ "\x27"),
   (priceKey, "N/A"), (dateKey, "N/A"), (imageKey, "")]

/-- The record of lines 930-937, returned when the cloudscraper attempt
raised outside the URL loop. -/
def cloudFailedListing (keyword msg : String) : Listing :=
  [(descKey, "Cloudscraper failed for \x27" ++ keyword ++ "\x27: " ++ msg),
   (priceKey, "N/A"), (dateKey, "N/A"), (imageKey, "")]

/-- Outcome of one `self.scraper.get` fetch in the URL loop of lines
881-906: `none` when the request or `raise_for_status` raised (caught at
lines 904-906), otherwise the parsed response body. -/
structure FetchOutcome where
  fetched : Option Soup

/-- Line 896: `"Error" in str(r)` for a dict `r` of string keys and
values holds exactly when some key or value contains `"Error"` (the
substring cannot straddle the quote-and-comma separators `str` inserts
between entries, since it contains neither quote nor comma). -/
def listingContainsError (r : Listing) : Bool :=
  r.any (fun kv => strContainsB kv.1 "Error" || strContainsB kv.2 "Error")

/-- The URL-variant loop of lines 881-916: accept the first fetched page
whose extraction is non-empty and free of error records (lines 893-899),
else fall through to the all-formats-failed record (lines 909-916). -/
def cloudscraperLoop (keyword : String) (max_results : Nat) :
    List FetchOutcome → List Listing
  | [] => [allUrlsFailedListing keyword]
  | f :: rest =>
    match f.fetched with
    | none => cloudscraperLoop keyword max_results rest
    | some soup =>
      let results := extract_results_from_soup soup keyword max_results
      if ¬results.isEmpty ∧ 0 < results.length ∧
          ¬(results.any listingContainsError = true) then results
      else cloudscraperLoop keyword max_results rest

/-- Environment of one `scrape_with_cloudscraper` call (lines 816-937):
`setupErr` is an exception raised outside the URL loop (caught at lines
918-937), `fetches` the outcomes of the successive fetches for the four
URL variants of lines 854-859. -/
structure CloudRun where
  setupErr : Option String
  fetches : List FetchOutcome

/-- `AntiDetectionScraper.scrape_with_cloudscraper` (lines 816-937). -/
def scrape_with_cloudscraper (run : CloudRun) (keyword : String)
    (max_results : Nat) : List Listing :=
  match run.setupErr with
  | some msg => [cloudFailedListing keyword msg]
  | none => cloudscraperLoop keyword max_results run.fetches

/-- Lines 40-50: the module sets `UNDETECTED_AVAILABLE = False` in both
the success branch of the import (line 45, with the comment `Temporarily
disable due to reuse issues`) and the failure branch (line 50). -/
def UNDETECTED_AVAILABLE (importSucceeds : Bool) : Bool :=
  if importSucceeds then false else false

/-- Environment of `setup_undetected_chrome` (lines 221-305):
`importSucceeds` is whether the `undetected_chromedriver` import of line
40 succeeded; `ucBuild` is what the guarded construction of lines
248-305 would yield if it ran (`none` for the except path returning
None). -/
structure UndetectedEnv where
  importSucceeds : Bool
  ucBuild : Option DriverRun

/-- `AntiDetectionScraper.setup_undetected_chrome` (lines 221-305):
returns None immediately when `UNDETECTED_AVAILABLE` is false (lines
244-246). -/
def setup_undetected_chrome (env : UndetectedEnv) : Option DriverRun :=
  if UNDETECTED_AVAILABLE env.importSucceeds then env.ucBuild else none

/-- Environment of one retry round of `scrape_with_retry` (lines
597-664): the undetected-Chrome environment, the stealth-Chrome attempt
(`none` when driver construction or configuration at lines 621-628
raised, caught at lines 634-641), and the cloudscraper environment. -/
structure RoundEnv where
  undetected : UndetectedEnv
  stealthBuild : Option DriverRun
  cloud : CloudRun

/-- A round environment with its undetected-Chrome part replaced. -/
def withUndetected (r : RoundEnv) (u : UndetectedEnv) : RoundEnv :=
  ⟨u, r.stealthBuild, r.cloud⟩

/-- The success test `if results and len(results) > 1` of lines 605, 631
and 649. -/
def backendSuccess (results : List Listing) : Bool :=
  !results.isEmpty && decide (1 < results.length)

/-- Accept a backend result only when the success test of lines 605, 631
and 649 holds; otherwise fall through. -/
def acceptResults (results : List Listing) : Option (List Listing) :=
  if backendSuccess results then some results else none

/-- The undetected-Chrome attempt of lines 600-616: skipped entirely
when `setup_undetected_chrome` returned None (`if driver:` at line
602). -/
def undetectedAttempt (round : RoundEnv) (keyword : String)
    (max_results : Nat) : Option (List Listing) :=
  match setup_undetected_chrome round.undetected with
  | none => none
  | some run => acceptResults (scrape_with_driver run keyword max_results)

/-- The stealth standard-Chrome attempt of lines 618-644: skipped (via
the except clause of lines 634-641) when the driver could not be built
or configured. -/
def stealthAttempt (round : RoundEnv) (keyword : String)
    (max_results : Nat) : Option (List Listing) :=
  match round.stealthBuild with
  | none => none
  | some run => acceptResults (scrape_with_driver run keyword max_results)

/-- The cloudscraper attempt of lines 646-658. -/
def cloudAttempt (round : RoundEnv) (keyword : String)
    (max_results : Nat) : Option (List Listing) :=
  acceptResults (scrape_with_cloudscraper round.cloud keyword max_results)

/-- One round of the loop body of lines 600-658: backends in order, the
first accepted result returned at once; exceptions of an attempt are
caught at the per-backend level and fall through to the next backend.
The cleanup `finally:` of line 615 is mis-indented in the source (a
Python SyntaxError, settled under claims C1 and C5); it is read here as
attached to the try of the undetected-Chrome attempt, the minimal
well-formed reading, which does not affect the returned value. -/
def attemptRound (round : RoundEnv) (keyword : String) (max_results : Nat) :
    Option (List Listing) :=
  pyOr (undetectedAttempt round keyword max_results)
    (pyOr (stealthAttempt round keyword max_results)
      (cloudAttempt round keyword max_results))

/-- Description of the final failure record of lines 667-674. -/
def allFailedDesc (keyword : String) : String :=
  "All scraping methods failed for \x27" ++ keyword ++
    "\x27 - website may be blocking automated access"

/-- The single record returned after all rounds are exhausted (lines
666-674). -/
def allFailedListing (keyword : String) : Listing :=
  [(descKey, allFailedDesc keyword),
   (priceKey, "N/A"), (dateKey, "N/A"), (imageKey, "")]

/-- `AntiDetectionScraper.scrape_with_retry` (lines 551-674): one
environment per retry round (the list length plays the role of
`max_retries`); the backoff sleep of lines 661-664 does not affect the
returned value. -/
def scrape_with_retry (rounds : List RoundEnv) (keyword : String)
    (max_results : Nat) : List Listing :=
  match rounds with
  | [] => [allFailedListing keyword]
  | r :: rest =>
    match attemptRound r keyword max_results with
    | some res => res
    | none => scrape_with_retry rest keyword max_results

/-- Configuration values read through `get_config()`
(src/backend/config.py, defaults at lines 52 and 57 there). -/
structure AppConfig where
  MAX_RESULTS : Nat
  SCRAPER_MAX_RETRIES : Nat

/-- The defaults of src/backend/config.py. -/
def defaultConfig : AppConfig := ⟨10, 3⟩

/-- `scrape_auction_results` (lines 1178-1217): fills `max_results` from
the configuration when absent, reads `max_retries` from the
configuration, and delegates to `scrape_with_retry` on the singleton
scraper; `envs` supplies the environment of each retry round. -/
def scrape_auction_results (cfg : AppConfig) (envs : Nat → RoundEnv)
    (keyword : String) (max_results : Option Nat) : List Listing :=
  let mr := max_results.getD cfg.MAX_RESULTS
  scrape_with_retry ((List.range cfg.SCRAPER_MAX_RETRIES).map envs) keyword mr

/-- Kinds of Python statements, as needed to model the block structure of
the `scrape_with_retry` method body. -/
inductive PyStmtKind where
  | kFor | kIf | kTry | kExcept | kFinally | kReturn | kPlain
deriving DecidableEq

/-- One logical line of Python: its indentation (spaces), its statement
kind, and the source line number it starts at. -/
structure PyLine where
  indent : Nat
  kind : PyStmtKind
  line : Nat
deriving DecidableEq

/-- The logical lines of the body of `scrape_with_retry` (src/scraper.py
lines 597-674), one entry per statement or clause header, with blank and
comment lines omitted and multi-line calls collapsed onto their first
line.  Indentation is transcribed from the source file. -/
def scrapeRetryBody : List PyLine :=
  [⟨8,  PyStmtKind.kFor,     597⟩,  -- for attempt in range(max_retries):
   ⟨12, PyStmtKind.kPlain,   598⟩,  -- print(...)
   ⟨12, PyStmtKind.kPlain,   601⟩,  -- driver = self.setup_undetected_chrome()
   ⟨12, PyStmtKind.kIf,      602⟩,  -- if driver:
   ⟨16, PyStmtKind.kTry,     603⟩,  -- try:
   ⟨20, PyStmtKind.kPlain,   604⟩,  -- results = self.scrape_with_driver(...)
   ⟨20, PyStmtKind.kIf,      605⟩,  -- if results and len(results) > 1:
   ⟨24, PyStmtKind.kReturn,  606⟩,  -- return results
   ⟨16, PyStmtKind.kExcept,  607⟩,  -- except Exception as e:
   ⟨20, PyStmtKind.kPlain,   608⟩,  -- from error_handling import ...
   ⟨20, PyStmtKind.kPlain,   609⟩,  -- handle_error(...)
   ⟨12, PyStmtKind.kFinally, 615⟩,  -- finally:
   ⟨16, PyStmtKind.kPlain,   616⟩,  -- driver.quit()
   ⟨12, PyStmtKind.kPlain,   619⟩,  -- driver = None
   ⟨12, PyStmtKind.kTry,     620⟩,  -- try:
   ⟨16, PyStmtKind.kPlain,   621⟩,  -- options = self.setup_stealth_chrome_options()
   ⟨16, PyStmtKind.kPlain,   622⟩,  -- service = Service(...)
   ⟨16, PyStmtKind.kPlain,   623⟩,  -- driver = webdriver.Chrome(...)
   ⟨16, PyStmtKind.kPlain,   626⟩,  -- driver.execute_script(...)
   ⟨16, PyStmtKind.kPlain,   630⟩,  -- results = self.scrape_with_driver(...)
   ⟨16, PyStmtKind.kIf,      631⟩,  -- if results and len(results) > 1:
   ⟨20, PyStmtKind.kReturn,  632⟩,  -- return results
   ⟨12, PyStmtKind.kExcept,  634⟩,  -- except Exception as e:
   ⟨16, PyStmtKind.kPlain,   635⟩,  -- from error_handling import ...
   ⟨16, PyStmtKind.kPlain,   636⟩,  -- handle_error(...)
   ⟨12, PyStmtKind.kFinally, 642⟩,  -- finally:
   ⟨16, PyStmtKind.kIf,      643⟩,  -- if driver:
   ⟨20, PyStmtKind.kPlain,   644⟩,  -- driver.quit()
   ⟨12, PyStmtKind.kTry,     647⟩,  -- try:
   ⟨16, PyStmtKind.kPlain,   648⟩,  -- results = self.scrape_with_cloudscraper(...)
   ⟨16, PyStmtKind.kIf,      649⟩,  -- if results and len(results) > 1:
   ⟨20, PyStmtKind.kReturn,  650⟩,  -- return results
   ⟨12, PyStmtKind.kExcept,  651⟩,  -- except Exception as e:
   ⟨16, PyStmtKind.kPlain,   652⟩,  -- from error_handling import ...
   ⟨16, PyStmtKind.kPlain,   653⟩,  -- handle_error(...)
   ⟨12, PyStmtKind.kIf,      661⟩,  -- if attempt < max_retries - 1:
   ⟨16, PyStmtKind.kPlain,   662⟩,  -- wait_time = random.uniform(5, 15)
   ⟨16, PyStmtKind.kPlain,   663⟩,  -- print(...)
   ⟨16, PyStmtKind.kPlain,   664⟩,  -- time.sleep(wait_time)
   ⟨8,  PyStmtKind.kReturn,  667⟩]  -- return [ ... ] (lines 667-674)

/-- The statement governing the clause at position `idx`: the last
earlier logical line whose indentation does not exceed that of the
clause line.  In Python, a `finally:` clause is part of the compound
statement introduced by exactly this line. -/
def governs (lines : List PyLine) (idx : Nat) : Option PyLine :=
  match lines.get? idx with
  | none => none
  | some l => ((lines.take idx).filter (fun p => p.indent ≤ l.indent)).getLast?

/-- Python grammar for a `finally:` clause at position `idx`: the
governing line must sit at the same indentation and be the `try:` (or a
subsequent `except:` clause) of the statement being closed.  Any other
governing statement makes the suite a syntax error. -/
def finallyWellPlacedAt (lines : List PyLine) (idx : Nat) : Bool :=
  match lines.get? idx with
  | none => true
  | some l =>
    if l.kind = PyStmtKind.kFinally then
      match governs lines idx with
      | none => false
      | some g =>
        decide (g.indent = l.indent) &&
          (decide (g.kind = PyStmtKind.kTry) ||
           decide (g.kind = PyStmtKind.kExcept))
    else true

/-- A suite is well formed (with respect to `finally:` placement) when
every `finally:` clause in it is attached to a `try` statement. -/
def finallyWellPlaced (lines : List PyLine) : Bool :=
  (List.range lines.length).all (finallyWellPlacedAt lines)

/-! Helper lemmas about the extractor. -/

theorem recKeys_buildListing (item : Element) (i : Nat) :
    recKeys (buildListing item i) = listingKeys := rfl

theorem recKeys_noResultsListing (k : String) :
    recKeys (noResultsListing k) = listingKeys := rfl

theorem recKeys_errorListing (k msg : String) :
    recKeys (errorListing k msg) = listingKeys := rfl

theorem recKeys_allUrlsFailedListing (k : String) :
    recKeys (allUrlsFailedListing k) = listingKeys := rfl

theorem recKeys_cloudFailedListing (k msg : String) :
    recKeys (cloudFailedListing k msg) = listingKeys := rfl

theorem recKeys_allFailedListing (k : String) :
    recKeys (allFailedListing k) = listingKeys := rfl

theorem processItem_some {i : Nat} {item : Element} {r : Listing}
    (h : processItem i item = some r) : r = buildListing item i := by
  unfold processItem at h
  split at h
  · dsimp only at h
    split at h
    · exact (Option.some.inj h).symm
    · cases h
  · cases h

/-- Every record produced by the extractor is either the synthetic
no-results record or the dict built for some surviving item. -/
theorem mem_extract {soup : Soup} {k : String} {mr : Nat} {r : Listing}
    (h : r ∈ extract_results_from_soup soup k mr) :
    r = noResultsListing k ∨ ∃ i item, r = buildListing item i := by
  simp only [extract_results_from_soup] at h
  split at h
  · left; simpa using h
  · right
    rcases List.mem_filterMap.mp h with ⟨p, _, hp⟩
    exact ⟨p.1, p.2, processItem_some hp⟩

theorem extract_keys {soup : Soup} {k : String} {mr : Nat} {r : Listing}
    (h : r ∈ extract_results_from_soup soup k mr) :
    recKeys r = listingKeys := by
  rcases mem_extract h with h1 | ⟨i, item, h2⟩
  · rw [h1]; exact recKeys_noResultsListing k
  · rw [h2]; exact recKeys_buildListing item i

theorem extract_length_pos (soup : Soup) (k : String) (mr : Nat) :
    0 < (extract_results_from_soup soup k mr).length := by
  simp only [extract_results_from_soup]
  split
  · simp
  · next h => exact List.length_pos.mpr (by simpa [List.isEmpty_iff] using h)

theorem extract_length_le (soup : Soup) (k : String) (mr : Nat) :
    (extract_results_from_soup soup k mr).length ≤ max mr 1 := by
  simp only [extract_results_from_soup]
  split
  · simp
  · calc (((productElements soup).take mr).enum.filterMap
          (fun p => processItem p.1 p.2)).length
        ≤ ((productElements soup).take mr).enum.length :=
          List.length_filterMap_le _ _
      _ = ((productElements soup).take mr).length := List.enum_length
      _ ≤ mr := by simpa using List.length_take_le mr (productElements soup)
      _ ≤ max mr 1 := le_max_left mr 1

/-! Helper lemmas about the backend attempts. -/

theorem driver_keys {run : DriverRun} {k : String} {mr : Nat} {r : Listing}
    (h : r ∈ scrape_with_driver run k mr) : recKeys r = listingKeys := by
  unfold scrape_with_driver at h
  split at h
  · simp only [List.mem_singleton] at h; rw [h]; exact recKeys_errorListing ..
  · split at h
    · split at h
      · split at h
        · simp only [List.mem_singleton] at h; rw [h]
          exact recKeys_errorListing ..
        · exact extract_keys h
      · simp only [List.mem_singleton] at h; rw [h]
        exact recKeys_errorListing ..
    · exact extract_keys h

theorem driver_length_pos (run : DriverRun) (k : String) (mr : Nat) :
    0 < (scrape_with_driver run k mr).length := by
  unfold scrape_with_driver
  split
  · simp
  · split
    · split
      · split
        · simp
        · exact extract_length_pos ..
      · simp
    · exact extract_length_pos ..

theorem driver_length_le (run : DriverRun) (k : String) (mr : Nat) :
    (scrape_with_driver run k mr).length ≤ max mr 1 := by
  unfold scrape_with_driver
  have h1 : (1 : Nat) ≤ max mr 1 := le_max_right mr 1
  split
  · simpa using h1
  · split
    · split
      · split
        · simpa using h1
        · exact extract_length_le ..
      · simpa using h1
    · exact extract_length_le ..

theorem cloudLoop_keys {k : String} {mr : Nat} {fs : List FetchOutcome}
    {r : Listing} (h : r ∈ cloudscraperLoop k mr fs) :
    recKeys r = listingKeys := by
  induction fs with
  | nil =>
    simp only [cloudscraperLoop, List.mem_singleton] at h
    rw [h]; exact recKeys_allUrlsFailedListing k
  | cons f rest ih =>
    simp only [cloudscraperLoop] at h
    split at h
    · exact ih h
    · split at h
      · exact extract_keys h
      · exact ih h

theorem cloud_keys {run : CloudRun} {k : String} {mr : Nat} {r : Listing}
    (h : r ∈ scrape_with_cloudscraper run k mr) : recKeys r = listingKeys := by
  unfold scrape_with_cloudscraper at h
  split at h
  · simp only [List.mem_singleton] at h; rw [h]
    exact recKeys_cloudFailedListing ..
  · exact cloudLoop_keys h

theorem cloudLoop_length_pos (k : String) (mr : Nat) (fs : List FetchOutcome) :
    0 < (cloudscraperLoop k mr fs).length := by
  induction fs with
  | nil => simp [cloudscraperLoop]
  | cons f rest ih =>
    simp only [cloudscraperLoop]
    split
    · exact ih
    · split
      · exact extract_length_pos ..
      · exact ih

theorem cloudLoop_length_le (k : String) (mr : Nat) (fs : List FetchOutcome) :
    (cloudscraperLoop k mr fs).length ≤ max mr 1 := by
  induction fs with
  | nil => simpa [cloudscraperLoop] using le_max_right mr 1
  | cons f rest ih =>
    simp only [cloudscraperLoop]
    split
    · exact ih
    · split
      · exact extract_length_le ..
      · exact ih

theorem cloud_length_pos (run : CloudRun) (k : String) (mr : Nat) :
    0 < (scrape_with_cloudscraper run k mr).length := by
  unfold scrape_with_cloudscraper
  split
  · simp
  · exact cloudLoop_length_pos ..

theorem cloud_length_le (run : CloudRun) (k : String) (mr : Nat) :
    (scrape_with_cloudscraper run k mr).length ≤ max mr 1 := by
  unfold scrape_with_cloudscraper
  split
  · simpa using le_max_right mr 1
  · exact cloudLoop_length_le ..

/-! Helper lemmas about the retry orchestrator. -/

theorem pyOr_eq_some {α : Type} {a b : Option α} {r : α}
    (h : pyOr a b = some r) : a = some r ∨ b = some r := by
  cases a with
  | some x => left; exact h
  | none => right; exact h

theorem acceptResults_some {results res : List Listing}
    (h : acceptResults results = some res) :
    res = results ∧ backendSuccess res = true := by
  unfold acceptResults at h
  split at h
  · next hb => cases h; exact ⟨rfl, hb⟩
  · cases h

/-- A result accepted by some backend in a round is a driver result or a
cloudscraper result, and passed the success test. -/
theorem attemptRound_some {round : RoundEnv} {k : String} {mr : Nat}
    {res : List Listing} (h : attemptRound round k mr = some res) :
    backendSuccess res = true ∧
      ((∃ run, res = scrape_with_driver run k mr) ∨
       res = scrape_with_cloudscraper round.cloud k mr) := by
  unfold attemptRound at h
  rcases pyOr_eq_some h with h1 | h1
  · unfold undetectedAttempt at h1
    split at h1
    · cases h1
    · next run _ =>
      rcases acceptResults_some h1 with ⟨he, hb⟩
      exact ⟨hb, Or.inl ⟨run, he⟩⟩
  · rcases pyOr_eq_some h1 with h2 | h2
    · unfold stealthAttempt at h2
      split at h2
      · cases h2
      · next run _ =>
        rcases acceptResults_some h2 with ⟨he, hb⟩
        exact ⟨hb, Or.inl ⟨run, he⟩⟩
    · unfold cloudAttempt at h2
      rcases acceptResults_some h2 with ⟨he, hb⟩
      exact ⟨hb, Or.inr he⟩

theorem retry_keys {rounds : List RoundEnv} {k : String} {mr : Nat}
    {r : Listing} (h : r ∈ scrape_with_retry rounds k mr) :
    recKeys r = listingKeys := by
  induction rounds with
  | nil =>
    simp only [scrape_with_retry, List.mem_singleton] at h
    rw [h]; exact recKeys_allFailedListing k
  | cons rd rest ih =>
    simp only [scrape_with_retry] at h
    split at h
    · next res heq =>
      rcases attemptRound_some heq with ⟨_, hsrc⟩
      rcases hsrc with ⟨run, hr⟩ | hr
      · rw [hr] at h; exact driver_keys h
      · rw [hr] at h; exact cloud_keys h
    · exact ih h

theorem retry_length_pos (rounds : List RoundEnv) (k : String) (mr : Nat) :
    0 < (scrape_with_retry rounds k mr).length := by
  induction rounds with
  | nil => simp [scrape_with_retry]
  | cons rd rest ih =>
    simp only [scrape_with_retry]
    split
    · next res heq =>
      rcases attemptRound_some heq with ⟨_, hsrc⟩
      rcases hsrc with ⟨run, hr⟩ | hr
      · rw [hr]; exact driver_length_pos ..
      · rw [hr]; exact cloud_length_pos ..
    · exact ih

theorem retry_length_le (rounds : List RoundEnv) (k : String) (mr : Nat) :
    (scrape_with_retry rounds k mr).length ≤ max mr 1 := by
  induction rounds with
  | nil => simpa [scrape_with_retry] using le_max_right mr 1
  | cons rd rest ih =>
    simp only [scrape_with_retry]
    split
    · next res heq =>
      rcases attemptRound_some heq with ⟨_, hsrc⟩
      rcases hsrc with ⟨run, hr⟩ | hr
      · rw [hr]; exact driver_length_le ..
      · rw [hr]; exact cloud_length_le ..
    · exact ih

/-! Further helper lemmas and concrete documents used by the claims. -/

theorem setup_undetected_none (u : UndetectedEnv) :
    setup_undetected_chrome u = none := by
  unfold setup_undetected_chrome UNDETECTED_AVAILABLE
  cases u.importSucceeds <;> simp

theorem acceptResults_of_short {results : List Listing}
    (h : results.length ≤ 1) : acceptResults results = none := by
  unfold acceptResults backendSuccess
  have h1 : ¬(1 < results.length) := by omega
  simp [h1]

theorem attemptRound_max_one (r : RoundEnv) (k : String) :
    attemptRound r k 1 = none := by
  unfold attemptRound
  have h1 : undetectedAttempt r k 1 = none := by
    unfold undetectedAttempt; rw [setup_undetected_none]
  have h2 : stealthAttempt r k 1 = none := by
    unfold stealthAttempt
    cases hst : r.stealthBuild with
    | none => rfl
    | some run =>
      exact acceptResults_of_short (by simpa using driver_length_le run k 1)
  have h3 : cloudAttempt r k 1 = none := by
    unfold cloudAttempt
    exact acceptResults_of_short (by simpa using cloud_length_le r.cloud k 1)
  rw [h1, h2, h3]; rfl

theorem retry_max_one (rounds : List RoundEnv) (k : String) :
    scrape_with_retry rounds k 1 = [allFailedListing k] := by
  induction rounds with
  | nil => rfl
  | cons r rest ih => simp [scrape_with_retry, attemptRound_max_one, ih]

theorem filterMap_congr_some {α β : Type} {L : List α} {f : α → Option β}
    {g : α → β} (h : ∀ a ∈ L, f a = some (g a)) :
    L.filterMap f = L.map g := by
  induction L with
  | nil => rfl
  | cons x xs ih =>
    rw [List.filterMap_cons, h x (List.mem_cons_self x xs), List.map_cons,
      ih (fun a ha => h a (List.mem_cons_of_mem x ha))]

/-- An element whose queries all come back empty, carrying only text. -/
def bareElement (txt : String) : Element :=
  ⟨txt, [], none, none, none, none, none, none, none, none, none, none,
   none, none, none, none, none, none, none, true⟩

/-- A qualifying candidate: its item-page link has text `nm`. -/
def namedElement (nm : String) : Element :=
  ⟨nm, [], some nm, none, none, none, none, none, none, none, none, none,
   none, none, none, none, none, none, none, true⟩

/-- A round in which every backend comes up empty: the undetected import
failed, the stealth driver could not be built, and the cloudscraper URL
loop ran out of fetches. -/
def emptyRound : RoundEnv := ⟨⟨true, none⟩, none, ⟨none, []⟩⟩

/-- Claim C1 (code_bug evidence): the suite of the `scrape_with_retry`
body is not well formed Python, because the `finally:` at line 615 is
not attached to any `try` statement (its governing statement is the
`if driver:` of line 602).  CPython rejects the file with a SyntaxError
at line 615, so the orchestrator entry point can never run, let alone
satisfy the never-raises/non-empty-result contract. -/
theorem scrape_with_retry_suite_illformed :
    finallyWellPlaced scrapeRetryBody = false := by decide

/-- Claim C5 (code_bug evidence): the cleanup clause `finally:
driver.quit()` of lines 615-616, which is the only release path for the
undetected-Chrome session of the first backend attempt, is governed by
the `if driver:` statement of line 602 rather than by the `try:` of line
603 — a Python syntax error, so no guaranteed release path exists as
written.  By contrast, the stealth-Chrome cleanup clause at line 642 is
correctly attached to its try statement. -/
theorem undetected_cleanup_finally_unattached :
    (scrapeRetryBody.get? 11).map PyLine.kind = some PyStmtKind.kFinally ∧
    (scrapeRetryBody.get? 11).map PyLine.line = some 615 ∧
    (governs scrapeRetryBody 11).map PyLine.kind = some PyStmtKind.kIf ∧
    (governs scrapeRetryBody 11).map PyLine.line = some 602 ∧
    finallyWellPlacedAt scrapeRetryBody 11 = false ∧
    finallyWellPlacedAt scrapeRetryBody 25 = true := by decide

/-- Claim C3: for every keyword and every `max_results ≥ 1`, the list
returned by the scrape entry point (`scrape_with_retry`, and
`scrape_auction_results` which delegates to it) has length at least 1
and at most `max max_results 1`. -/
theorem scrape_result_length_bounds (keyword : String) (mr : Nat)
    (rounds : List RoundEnv) (cfg : AppConfig) (envs : Nat → RoundEnv)
    (hmr : 1 ≤ mr) :
    1 ≤ (scrape_with_retry rounds keyword mr).length ∧
    (scrape_with_retry rounds keyword mr).length ≤ max mr 1 ∧
    1 ≤ (scrape_auction_results cfg envs keyword (some mr)).length ∧
    (scrape_auction_results cfg envs keyword (some mr)).length ≤ max mr 1 := by
  refine ⟨retry_length_pos .., retry_length_le .., ?_, ?_⟩
  · exact retry_length_pos ..
  · exact retry_length_le ..

/-- Witness for C3 at a concrete input. -/
theorem scrape_result_length_bounds_witness :
    1 ≤ (scrape_with_retry [emptyRound] "vintage watch" 5).length ∧
    (scrape_with_retry [emptyRound] "vintage watch" 5).length ≤ max 5 1 ∧
    1 ≤ (scrape_auction_results defaultConfig (fun _ => emptyRound)
          "vintage watch" (some 5)).length ∧
    (scrape_auction_results defaultConfig (fun _ => emptyRound)
          "vintage watch" (some 5)).length ≤ max 5 1 :=
  scrape_result_length_bounds "vintage watch" 5 [emptyRound] defaultConfig
    (fun _ => emptyRound) (by decide)

/-- Claim C8: the blocking detector returns true exactly when the
lowercased page content contains one of the nine fixed indicators; it is
a pure function of the content. -/
theorem check_for_blocking_iff_indicator (content : String) :
    check_for_blocking content = true ↔
      ∃ ind ∈ blocking_indicators, strContains (pyLower content) ind := by
  simp [check_for_blocking, strContainsB, List.any_eq_true]

/-- Claim C9: `UNDETECTED_AVAILABLE` is false whether or not the import
succeeds, so `setup_undetected_chrome` returns None on every call, and
the result of a retry round never depends on the undetected-Chrome
environment: the first-tier backend is never attempted. -/
theorem undetected_backend_never_attempted :
    (∀ b : Bool, UNDETECTED_AVAILABLE b = false) ∧
    (∀ u : UndetectedEnv, setup_undetected_chrome u = none) ∧
    (∀ (r : RoundEnv) (u : UndetectedEnv) (k : String) (mr : Nat),
      attemptRound (withUndetected r u) k mr = attemptRound r k mr) := by
  refine ⟨fun b => by cases b <;> rfl, setup_undetected_none, ?_⟩
  intro r u k mr
  unfold attemptRound undetectedAttempt
  rw [setup_undetected_none, setup_undetected_none]; rfl

/-- Claim C10: with `max_results = 1` every extraction returns at most
one record, so the success test `len(results) > 1` of the orchestrator
can never hold: no backend is ever accepted and `scrape_with_retry`
always returns the single synthetic all-methods-failed record, whatever
the backends did. -/
theorem max_results_one_always_fails :
    (∀ (r : RoundEnv) (k : String), attemptRound r k 1 = none) ∧
    (∀ (rounds : List RoundEnv) (k : String),
      scrape_with_retry rounds k 1 = [allFailedListing k]) :=
  ⟨attemptRound_max_one, retry_max_one⟩

/-- Claim C2 counterexample: a record actually returned by the
orchestrator (the all-methods-failed record of a run whose single round
found nothing) carries the literal keys of the source, and none of the
four key names asserted by the claim (`description`, `price_text`,
`end_date_text`, `image_url`) occurs among its keys. -/
theorem listing_keys_differ_from_spec_names :
    scrape_with_retry [emptyRound] "x" 5 = [allFailedListing "x"] ∧
    recKeys (allFailedListing "x") = [descKey, priceKey, dateKey, imageKey] ∧
    ¬("description" ∈ recKeys (allFailedListing "x")) ∧
    ¬("price_text" ∈ recKeys (allFailedListing "x")) ∧
    ¬("end_date_text" ∈ recKeys (allFailedListing "x")) ∧
    ¬("image_url" ∈ recKeys (allFailedListing "x")) := by decide

/-- Claim C2 as amended: every record in every list returned by the
scrape entry point has exactly the four literal keys of the source,
`Item Description`, `Current price`, `Auction end date` and
`Auction image / thumbnail URL (extra credit)`, in this order, with no
key ever missing, whether the scrape succeeded or produced a synthetic
failure record. -/
theorem scrape_records_have_exact_code_keys :
    (∀ (rounds : List RoundEnv) (keyword : String) (mr : Nat) (r : Listing),
      r ∈ scrape_with_retry rounds keyword mr →
      recKeys r = [descKey, priceKey, dateKey, imageKey]) ∧
    (∀ (cfg : AppConfig) (envs : Nat → RoundEnv) (keyword : String)
      (omr : Option Nat) (r : Listing),
      r ∈ scrape_auction_results cfg envs keyword omr →
      recKeys r = [descKey, priceKey, dateKey, imageKey]) :=
  ⟨fun _ _ _ _ h => retry_keys h, fun _ _ _ _ _ h => retry_keys h⟩

/-- Witness for the amended C2 at a concrete input. -/
theorem scrape_records_have_exact_code_keys_witness :
    recKeys (allFailedListing "x") = [descKey, priceKey, dateKey, imageKey] :=
  scrape_records_have_exact_code_keys.1 [emptyRound] "x" 5
    (allFailedListing "x") (by decide)

/-- Document for the C4 counterexample: the first selector returns six
candidates that all survive the navigation filter; the first of them has
no description element (so it is dropped by the qualification test at
lines 1128-1132) and the remaining five all qualify. -/
def c4soup : Soup :=
  ⟨fun sel =>
    if sel = ".p-datatable-tbody tr" then
      [bareElement "misc", namedElement "alpha", namedElement "bravo",
       namedElement "delta", namedElement "gamma", namedElement "omega"]
    else []⟩

/-- Claim C4 counterexample: five qualifying candidates survive
filtering (extracting with a window of 6 returns all five of them), yet
with `max_results = 2` the extractor returns one record, not two,
because the source truncates to the first `max_results` survivors before
testing qualification (line 1022). -/
theorem extractor_truncates_before_qualifying :
    (productElements c4soup).length = 6 ∧
    (extract_results_from_soup c4soup "x" 6).length = 5 ∧
    (extract_results_from_soup c4soup "x" 2).length = 1 ∧
    extract_results_from_soup c4soup "x" 2 =
      [[(descKey, "alpha"), (priceKey, "Price not available"),
        (dateKey, "Date not available"), (imageKey, "")]] := by decide

/-- Claim C4 as amended: the extractor examines only the first
`max_results` surviving candidates; when every one of them is kept (its
body raises no exception and its description qualifies), exactly
`max_results` records are returned, namely the records of those
candidates in document order. -/
theorem extractor_full_window_count (soup : Soup) (keyword : String)
    (mr : Nat) (hmr : 1 ≤ mr) (hlen : mr ≤ (productElements soup).length)
    (hq : ∀ p ∈ ((productElements soup).take mr).enum,
      processItem p.1 p.2 = some (buildListing p.2 p.1)) :
    extract_results_from_soup soup keyword mr =
      ((productElements soup).take mr).enum.map (fun p => buildListing p.2 p.1) ∧
    (extract_results_from_soup soup keyword mr).length = mr := by
  have hfm : ((productElements soup).take mr).enum.filterMap
      (fun p => processItem p.1 p.2) =
      ((productElements soup).take mr).enum.map (fun p => buildListing p.2 p.1) :=
    filterMap_congr_some hq
  have hlenL : (((productElements soup).take mr).enum.map
      (fun p => buildListing p.2 p.1)).length = mr := by
    rw [List.length_map, List.enum_length, List.length_take]
    omega
  have hne : (((productElements soup).take mr).enum.map
      (fun p => buildListing p.2 p.1)).isEmpty = false := by
    have h0 : 0 < (((productElements soup).take mr).enum.map
        (fun p => buildListing p.2 p.1)).length := by omega
    cases hL : ((productElements soup).take mr).enum.map
        (fun p => buildListing p.2 p.1) with
    | nil => rw [hL] at h0; simp at h0
    | cons a t => rfl
  simp only [extract_results_from_soup, hfm, hne]
  exact ⟨rfl, hlenL⟩

/-- Document for the C4 witness: five qualifying candidates and nothing
else. -/
def qual5soup : Soup :=
  ⟨fun sel =>
    if sel = ".p-datatable-tbody tr" then
      [namedElement "alpha", namedElement "bravo", namedElement "delta",
       namedElement "gamma", namedElement "omega"]
    else []⟩

/-- Witness for the amended C4 at a concrete input. -/
theorem extractor_full_window_count_witness :
    extract_results_from_soup qual5soup "x" 2 =
      ((productElements qual5soup).take 2).enum.map
        (fun p => buildListing p.2 p.1) ∧
    (extract_results_from_soup qual5soup "x" 2).length = 2 :=
  extractor_full_window_count qual5soup "x" 2 (by decide) (by decide) (by decide)

theorem noResultsDesc_contains_keyword (keyword : String) :
    strContains (noResultsDesc keyword) keyword := by
  refine ⟨"No results found for \x27".data,
    "\x27 - website may be blocking automated access".data, ?_⟩
  simp [noResultsDesc, strContains, String.data_append, List.append_assoc]

theorem noResultsDesc_contains_found (keyword : String) :
    strContains (noResultsDesc keyword) "found" := by
  refine ⟨"No results ".data,
    (" for \x27" ++ keyword ++
      "\x27 - website may be blocking automated access").data, ?_⟩
  have h : ("No results found for \x27" : String).data =
      "No results ".data ++ "found".data ++ " for \x27".data := by decide
  simp [noResultsDesc, String.data_append, List.append_assoc, h]

/-- Claim C6: when none of the examined candidates is kept, the
extractor returns exactly the one synthetic record, whose description
contains the keyword and the word `found`, whose price and date fields
are `N/A` and whose image field is empty; in particular the extractor
never returns an empty list. -/
theorem extractor_zero_qualifying_synthetic (soup : Soup) (keyword : String)
    (mr : Nat)
    (h : ∀ p ∈ ((productElements soup).take mr).enum,
      processItem p.1 p.2 = none) :
    extract_results_from_soup soup keyword mr = [noResultsListing keyword] ∧
    (extract_results_from_soup soup keyword mr).length = 1 ∧
    strContains (noResultsDesc keyword) keyword ∧
    (strContains (noResultsDesc keyword) "found" ∨
     strContains (noResultsDesc keyword) "blocked") ∧
    listingGet (noResultsListing keyword) priceKey = "N/A" ∧
    listingGet (noResultsListing keyword) dateKey = "N/A" ∧
    listingGet (noResultsListing keyword) imageKey = "" := by
  have hnil : ((productElements soup).take mr).enum.filterMap
      (fun p => processItem p.1 p.2) = [] :=
    List.filterMap_eq_nil_iff.mpr h
  have hext : extract_results_from_soup soup keyword mr =
      [noResultsListing keyword] := by
    simp only [extract_results_from_soup, hnil]; rfl
  refine ⟨hext, by rw [hext]; rfl, noResultsDesc_contains_keyword keyword,
    Or.inl (noResultsDesc_contains_found keyword), rfl, rfl, rfl⟩

/-- Document for the C6 witness: one surviving candidate with no
description element, so nothing qualifies. -/
def c6soup : Soup :=
  ⟨fun sel =>
    if sel = ".p-datatable-tbody tr" then [bareElement "misc"] else []⟩

/-- Witness for C6 at a concrete input. -/
theorem extractor_zero_qualifying_synthetic_witness :
    extract_results_from_soup c6soup "watch" 3 = [noResultsListing "watch"] ∧
    (extract_results_from_soup c6soup "watch" 3).length = 1 ∧
    strContains (noResultsDesc "watch") "watch" ∧
    (strContains (noResultsDesc "watch") "found" ∨
     strContains (noResultsDesc "watch") "blocked") ∧
    listingGet (noResultsListing "watch") priceKey = "N/A" ∧
    listingGet (noResultsListing "watch") dateKey = "N/A" ∧
    listingGet (noResultsListing "watch") imageKey = "" :=
  extractor_zero_qualifying_synthetic c6soup "watch" 3 (by decide)

/-- Modelled from the spec: an absolute URL is one that carries a
scheme, and by RFC 3986 an absolute URI begins with `scheme ":"`, so
containing a colon is a necessary condition for being absolute.  Used
only negatively, to show an extracted value is not an absolute URL under
any reading of the spec. -/
def specAbsoluteUrl (s : String) : Prop := strContains s ":"

instance (s : String) : Decidable (specAbsoluteUrl s) := by
  unfold specAbsoluteUrl; infer_instance

/-- Document for the C7 counterexample: one qualifying candidate whose
image src is a relative path without a leading slash. -/
def relImgElement : Element :=
  ⟨"Vintage Lamp", [], some "Vintage Lamp", none, none, none, none, none,
   none, none, none, none, none, none, none,
   some ⟨some "img/lamp.jpg", none, none, none⟩, none, none, none, true⟩

def c7soup : Soup :=
  ⟨fun sel =>
    if sel = ".p-datatable-tbody tr" then [relImgElement] else []⟩

/-- Claim C7 counterexample: the extracted record keeps the raw relative
value `img/lamp.jpg` in its image field — non-empty, and without a colon
it cannot be an absolute URL: only leading `//` and `/` are rewritten
(lines 1121-1124), a bare relative path passes through unchanged. -/
theorem image_url_relative_counterexample :
    extract_results_from_soup c7soup "lamp" 5 =
      [[(descKey, "Vintage Lamp"), (priceKey, "Price not available"),
        (dateKey, "Date not available"), (imageKey, "img/lamp.jpg")]] ∧
    ("img/lamp.jpg" : String) ≠ "" ∧
    ¬specAbsoluteUrl "img/lamp.jpg" := by decide

/-- Claim C7 as amended: the image field of an item is the empty string,
or a URL with scheme `https:` (produced by rewriting protocol-relative
and root-relative attribute values against the site origin), or the
first img element's raw src/data-src/data-lazy/data-original value
passed through unchanged — which need not be absolute. -/
theorem image_url_shape (item : Element) :
    extractImage item = "" ∨
    (∃ rest, extractImage item = "https:" ++ rest) ∨
    (∃ img, imgElem item = some img ∧ extractImage item = rawImageUrl img) := by
  cases himg : imgElem item with
  | none =>
    left
    unfold extractImage
    rw [himg]
  | some img =>
    have hext : extractImage item = absolutizeImageUrl (rawImageUrl img) := by
      unfold extractImage; rw [himg]
    rw [hext]
    unfold absolutizeImageUrl
    split
    · right; left; exact ⟨rawImageUrl img, rfl⟩
    · split
      · right; left
        refine ⟨"//shopgoodwill.com" ++ rawImageUrl img, ?_⟩
        have hlit : ("https://shopgoodwill.com" : String) =
            "https:" ++ "//shopgoodwill.com" := by decide
        rw [hlit, strAppendAssoc]
      · right; right; exact ⟨img, rfl, rfl⟩

end CoemetaScraper
